import Mathlib

/-!
Verification of the UMIE_datasets dataset-normalization pipelines.

Shallow embedding of `src/pipelines/brain_with_intracranial_hemorrhage.py`,
`src/pipelines/chest_xray14.py` and the engine contracts they instantiate.
Filesystem reads (`os.path.exists`, `cv2.imread`, `pd.read_csv`) are modelled
by explicit parameters (an association list of rows for a CSV, an optional
pixel list for an image on disk); Python exceptions (KeyError) are modelled
by `Except`.
-/

/-- The step classes imported and used by the two pipeline definitions
(`from steps import ...`). Each constructor names one step class. -/
inductive Step : Type
  | GetFilePaths
  | CreateFileTree
  | ConvertJpg2Png
  | CopyMasks
  | MasksToBinaryColors
  | RecolorMasks
  | AddUmieIds
  | AddLabels
  | CreateBlankMasks
  | DeleteTempFiles
  | DeleteTempPng
  | ValidateData
  | StoreSourcePaths
  | DeleteImgsWithNoAnnotations
  deriving DecidableEq, Repr

/-- Whether the list `l` starts with the list `p`. -/
def listStartsWith : List Char → List Char → Bool
  | _, [] => true
  | [], _ :: _ => false
  | c :: cs, d :: ds => c == d && listStartsWith cs ds

/-- Whether `sub` occurs as a contiguous sublist of `l`. -/
def containsSub : List Char → List Char → Bool
  | [], sub => sub.isEmpty
  | l@(_ :: t), sub => listStartsWith l sub || containsSub t sub

/-- Python substring test `sub in s`. -/
def strContains (s sub : String) : Bool :=
  containsSub s.data sub.data

/-- Split a character list at every occurrence of `c`
(Python `str.split(c)`: `"a/b".split("/") = ["a", "b"]`, `"".split("/") = [""]`). -/
def splitChar (c : Char) : List Char → List (List Char)
  | [] => [[]]
  | d :: t =>
    if d == c then [] :: splitChar c t
    else
      match splitChar c t with
      | [] => [[d]]
      | h :: r => (d :: h) :: r

/-- Python `s.split(c)` for a one-character separator. -/
def splitOnChar (s : String) (c : Char) : List String :=
  (splitChar c s.data).map String.mk

/-- `os.path.basename`: the final path component (paths here use "/"). -/
def basename (p : String) : String :=
  (splitOnChar p '/').getLastD ""

namespace BrainWithIntracranialHemorrhage

/-- `BrainWithIntracranialHemorrhagePipeline.steps`: the ordered tuple of
(name, step class) pairs, transcribed from the source (the commented-out
alternative policy step is not part of the tuple). -/
def PipelineSteps : List (String × Step) :=
  [("get_file_paths", Step.GetFilePaths),
   ("create_file_tree", Step.CreateFileTree),
   ("convert_jpg2png", Step.ConvertJpg2Png),
   ("copy_masks", Step.CopyMasks),
   ("masks_to_binary_colors", Step.MasksToBinaryColors),
   ("recolor_masks", Step.RecolorMasks),
   ("add_new_ids", Step.AddUmieIds),
   ("add_labels", Step.AddLabels),
   ("create_blank_masks", Step.CreateBlankMasks),
   ("delete_temp_files", Step.DeleteTempFiles),
   ("delete_temp_png", Step.DeleteTempPng),
   ("validate_data", Step.ValidateData)]

/-- `ImageSelector._is_image_file`: `"." in path`. -/
def ImageSelector.is_image_file (path : String) : Bool :=
  strContains path "."

/-- `MaskSelector._is_mask_file`: `"_HGE_Seg" in path`. -/
def MaskSelector.is_mask_file (path : String) : Bool :=
  strContains path "_HGE_Seg"

end BrainWithIntracranialHemorrhage

namespace ChestXray14

/-- `ChestXray14Pipeline.steps`: the ordered tuple of (name, step class)
pairs, transcribed from the source.  The `delete_imgs_with_no_annotations`
entry is commented out in the source and hence absent here. -/
def PipelineSteps : List (String × Step) :=
  [("create_file_tree", Step.CreateFileTree),
   ("get_file_paths", Step.GetFilePaths),
   ("store_source_paths", Step.StoreSourcePaths),
   ("add_new_ids", Step.AddUmieIds),
   ("add_labels", Step.AddLabels),
   ("delete_temp_files", Step.DeleteTempFiles),
   ("validate_data", Step.ValidateData)]

/-- `ImageSelector._is_image_file`: always `True`. -/
def ImageSelector.is_image_file (_path : String) : Bool :=
  true

/-- `MaskSelector._is_mask_file`: always `True`. -/
def MaskSelector.is_mask_file (_path : String) : Bool :=
  true

end ChestXray14

/-- Base-10 digits of `n`, least significant first, with explicit fuel so the
definition is structural (and kernel-evaluable); `fuel = n` always suffices. -/
def decDigitsFuel : Nat → Nat → List Nat
  | 0, _ => []
  | fuel + 1, n => if n = 0 then [] else n % 10 :: decDigitsFuel fuel (n / 10)

/-- Base-10 digits of `n`, least significant first. -/
def decDigits (n : Nat) : List Nat :=
  decDigitsFuel n n

/-- The decimal rendering `str(n)` of a natural number: its base-10 digits,
most significant first, as characters. -/
def decRepr (n : Nat) : String :=
  ⟨((decDigits n).map Nat.digitChar).reverse⟩

/-- Python `str.zfill(w)`: left-pad with "0" up to width `w`; a string already
at least `w` long is returned unchanged (`w - length = 0` then). -/
def zfillStr (w : Nat) (s : String) : String :=
  ⟨List.replicate (w - s.length) '0' ++ s.data⟩

/-- Modelled from the spec: the `AddUmieIds` step is not under src/; the spec
says generated image ids for one run are sequential numbers zero-padded to the
configured zfill width (Scenario D: zfill=4 and 15 images give
"0001".."0015"). -/
def genIds (w n : Nat) : List String :=
  (List.range n).map (fun i => zfillStr w (decRepr (i + 1)))

/-- `ChestXray14Pipeline.pipeline_args` sets `zfill=4`. -/
def ChestXray14.pipelineArgs_zfill : Nat := 4

/-- A source tree: the files under `source_path`, each a path with content
bytes. -/
structure SourceTree where
  files : List (String × List Nat)
  deriving DecidableEq

/-- Modelled from the spec: the engine's shared `RunContext` (the BasePipeline
machinery is not under src/) — discovered source and mask file paths, the
produced target tree, and the accumulated metadata records. -/
structure RunContext where
  source : SourceTree
  file_paths : List String
  mask_paths : List String
  target_tree : List (String × List Nat)
  metadata : List String
  deriving DecidableEq

/-- Modelled from the spec: the engine "initializes RunContext" from the root
source path before any step runs. -/
def initRunContext (t : SourceTree) : RunContext :=
  ⟨t, [], [], [], []⟩

/-- Modelled from the spec: the engine "invokes each step's transformation in
declared order" against the shared context; each step is a transformation of
the context (steps are stateless between runs). -/
def Pipeline.transform (steps : List (RunContext → RunContext)) (ctx : RunContext) :
    RunContext :=
  steps.foldl (fun c s => s c) ctx

/-- One full run: execute the steps from the initial context of a source tree;
the durable output is the target tree and the metadata record file. -/
def runPipeline (steps : List (RunContext → RunContext)) (t : SourceTree) :
    List (String × List Nat) × List String :=
  let c := Pipeline.transform steps (initRunContext t)
  (c.target_tree, c.metadata)

/-- The dataset pipelines present in the source tree, by step tuple. -/
def allPipelineSteps : List (List (String × Step)) :=
  [BrainWithIntracranialHemorrhage.PipelineSteps, ChestXray14.PipelineSteps]

/-- Position of the first occurrence of step class `s` in a steps tuple. -/
def stepIdx (steps : List (String × Step)) (s : Step) : Nat :=
  steps.findIdx (fun p => p.2 == s)

/-- Whether a steps tuple contains the step class `s`. -/
def containsStep (steps : List (String × Step)) (s : Step) : Bool :=
  steps.any (fun p => p.2 == s)

/-- Modelled from the spec: `BaseExtractor._extract_parent_dir(img_path, level,
include_path=False)` is not under src/; the source comments describe it as the
name of the folder the image sits in ("name of parent folder of images",
"name of folder 1 level above image"), without the leading path. -/
def extract_parent_dir (p : String) : String :=
  ((splitOnChar p '/').dropLast).getLastD ""

/-- Modelled from the spec: `BasePhaseIdExtractor._get_phase_id_from_dict` is
not under src/; the spec says phase ids are "resolved via a name→id lookup
table" and the lookup "fails with a KeyError-equivalent when the source phase
name is not in the table".  The KeyError carries the offending name. -/
def get_phase_id_from_dict (phases : List (String × String)) (name : String) :
    Except String String :=
  match phases.find? (fun q => q.1 == name) with
  | some q => Except.ok q.2
  | none => Except.error name

/-- Modelled from the spec: `BaseImgIdExtractor._extract_by_separator(path,
sep, i)` is not under src/; the source comment describes the result as "the
second part of the image name before the first underscore", i.e. component `i`
of the filename split on the separator. -/
def extract_by_separator (p : String) (sep : Char) (i : Nat) : String :=
  (splitOnChar (basename p) sep).getD i ""

/-- Modelled from the spec: `BaseStudyIdExtractor._extract_filename` is not
under src/; it retrieves the image name from the path. -/
def extract_filename (p : String) : String :=
  basename p

/-- A pixel as read by `cv2.imread`: a list of channel values. -/
abbrev Color := List Nat

/-- An image as a flat list of pixels. -/
abbrev Image := List Color

/-- The numpy membership test `colors in img` used by the brain label
extractor, where `colors` is the list of configured target colors: numpy
evaluates `x in arr` as `(arr == x).any()`, an elementwise (per-channel)
comparison under broadcasting.  For a single target color this is: some pixel
agrees with the color on some channel. -/
def numpyElemMatch (colors : List Color) (img : Image) : Bool :=
  colors.any (fun c => img.any (fun px => (px.zip c).any (fun ab => ab.1 == ab.2)))

namespace BrainWithIntracranialHemorrhage

/-- `ImgIdExtractor._extract`: `os.path.basename(img_path)`. -/
def ImgIdExtractor.extract (img_path : String) : String :=
  basename img_path

/-- `StudyIdExtractor._extract`: parent-folder name of the image. -/
def StudyIdExtractor.extract (img_path : String) : String :=
  extract_parent_dir img_path

/-- `PhaseExtractor._extract`: look the parent-folder name up in the phase
dictionary; a missing key is a KeyError (`Except.error`). -/
def PhaseExtractor.extract (phases : List (String × String)) (img_path : String) :
    Except String String :=
  get_phase_id_from_dict phases (extract_parent_dir img_path)

/-- `LabelExtractor._extract`: if the mask path exists on disk
(`fs mask_path = some img`) and `self.target_colors in cv2.imread(mask_path)`,
return `(self.labels["brain_hemorrhage"], ["brain_hemorrhage"])`, else
`(self.labels["normal"], ["normal"])`.  The filesystem is the parameter `fs`;
the label dictionary is the parameter `labels`. -/
def LabelExtractor.extract (labels : String → List String) (target_colors : List Color)
    (fs : String → Option Image) (_img_path mask_path : String) :
    List String × List String :=
  match fs mask_path with
  | some img =>
      if numpyElemMatch target_colors img then
        (labels "brain_hemorrhage", ["brain_hemorrhage"])
      else
        (labels "normal", ["normal"])
  | none => (labels "normal", ["normal"])

end BrainWithIntracranialHemorrhage

namespace ChestXray14

/-- `ImgIdExtractor._extract`: component 1 of the filename split on "_". -/
def ImgIdExtractor.extract (img_path : String) : String :=
  extract_by_separator img_path '_' 1

/-- `StudyIdExtractor._extract`: `self._extract_filename(img_path).split("_")[0]`. -/
def StudyIdExtractor.extract (img_path : String) : String :=
  (splitOnChar (extract_filename img_path) '_').getD 0 ""

/-- The loop `for label in labels: radlex_labels.extend(self.labels[label])`:
each raw finding is looked up in the label dictionary; a missing key raises a
KeyError (`Except.error` carrying the offending finding name). -/
def lookupLabels (labels : List (String × List String)) :
    List String → Except String (List String)
  | [] => Except.ok []
  | l :: ls =>
    match labels.find? (fun q => q.1 == l) with
    | none => Except.error l
    | some q => (lookupLabels labels ls).map (fun rest => q.2 ++ rest)

/-- `LabelExtractor._extract`: find the rows of the label CSV whose
"Image Index" equals the image basename; if none, return `([], [])`; else
split the first row's "Finding Labels" on "|" and look each finding up in the
label dictionary.  The CSV is the parameter `source_labels` as a list of
("Image Index", "Finding Labels") pairs. -/
def LabelExtractor.extract (labels : List (String × List String))
    (source_labels : List (String × String)) (img_path : String) :
    Except String (List String × List String) :=
  let img_name := basename img_path
  match source_labels.filter (fun r => r.1 == img_name) with
  | [] => Except.ok ([], [])
  | r :: _ =>
    let labs := splitOnChar r.2 '|'
    (lookupLabels labels labs).map (fun radlex => (radlex, labs))

end ChestXray14

/-! ## Claim theorems -/

/-- C1 counterexample: `BrainWithIntracranialHemorrhagePipeline.steps` contains
both the recolor step and the binarize step (`masks_to_binary_colors`), but the
recolor step sits at position 5, AFTER the binarize step at position 4 — so the
recolor step does not occur at an earlier position. -/
theorem C1_recolor_before_binarize_counterexample :
    containsStep BrainWithIntracranialHemorrhage.PipelineSteps Step.RecolorMasks = true ∧
    containsStep BrainWithIntracranialHemorrhage.PipelineSteps Step.MasksToBinaryColors = true ∧
    stepIdx BrainWithIntracranialHemorrhage.PipelineSteps Step.RecolorMasks = 5 ∧
    stepIdx BrainWithIntracranialHemorrhage.PipelineSteps Step.MasksToBinaryColors = 4 ∧
    ¬ stepIdx BrainWithIntracranialHemorrhage.PipelineSteps Step.RecolorMasks <
        stepIdx BrainWithIntracranialHemorrhage.PipelineSteps Step.MasksToBinaryColors := by
  decide

/-- C1 amended: in every dataset pipeline whose step sequence contains both the
recolor step and the binarize step, the binarize step
(`masks_to_binary_colors`) occurs at an earlier position than the recolor step;
the brain pipeline has them at positions 4 and 5 respectively, and the
ChestX-ray14 pipeline contains neither. -/
theorem C1_binarize_before_recolor :
    (containsStep BrainWithIntracranialHemorrhage.PipelineSteps Step.RecolorMasks = true ∧
     containsStep BrainWithIntracranialHemorrhage.PipelineSteps Step.MasksToBinaryColors = true ∧
     stepIdx BrainWithIntracranialHemorrhage.PipelineSteps Step.MasksToBinaryColors <
       stepIdx BrainWithIntracranialHemorrhage.PipelineSteps Step.RecolorMasks) ∧
    (containsStep ChestXray14.PipelineSteps Step.RecolorMasks = false ∧
     containsStep ChestXray14.PipelineSteps Step.MasksToBinaryColors = false) := by
  decide

/-- C8: no dataset pipeline's step sequence contains both the
blank-mask-synthesis step (`CreateBlankMasks`) and the drop-unmasked-images
step (`DeleteImgsWithNoAnnotations`): the brain pipeline has only the former
and the ChestX-ray14 pipeline has neither (its `DeleteImgsWithNoAnnotations`
entry is commented out in the source). -/
theorem C8_missing_mask_policies_exclusive :
    (¬ (containsStep BrainWithIntracranialHemorrhage.PipelineSteps Step.CreateBlankMasks = true ∧
        containsStep BrainWithIntracranialHemorrhage.PipelineSteps
          Step.DeleteImgsWithNoAnnotations = true)) ∧
    (¬ (containsStep ChestXray14.PipelineSteps Step.CreateBlankMasks = true ∧
        containsStep ChestXray14.PipelineSteps Step.DeleteImgsWithNoAnnotations = true)) := by
  decide

/-- C6 counterexample: the selectors are not disjoint.  For the brain dataset
the path "049_HGE_Seg.jpg" (a source mask filename) satisfies both
`_is_image_file` (it contains ".") and `_is_mask_file` (it contains
"_HGE_Seg"); for ChestX-ray14 both selectors return `True` on every path, e.g.
on "img.png". -/
theorem C6_selector_disjointness_counterexample :
    (BrainWithIntracranialHemorrhage.ImageSelector.is_image_file "049_HGE_Seg.jpg" = true ∧
     BrainWithIntracranialHemorrhage.MaskSelector.is_mask_file "049_HGE_Seg.jpg" = true) ∧
    (ChestXray14.ImageSelector.is_image_file "img.png" = true ∧
     ChestXray14.MaskSelector.is_mask_file "img.png" = true) := by
  decide

/-- C6 amended: the selector pairs are not disjoint on all paths.  For the
brain dataset both selectors match a path exactly when it contains both "."
and "_HGE_Seg", so the pair is disjoint precisely on paths lacking one of the
two substrings; for ChestX-ray14 both selectors accept every path, so no path
witnesses disjointness. -/
theorem C6_selector_disjointness_amended :
    (∀ p : String,
      (¬ (BrainWithIntracranialHemorrhage.ImageSelector.is_image_file p = true ∧
          BrainWithIntracranialHemorrhage.MaskSelector.is_mask_file p = true)) ↔
      (strContains p "." = false ∨ strContains p "_HGE_Seg" = false)) ∧
    (∀ p : String,
      ChestXray14.ImageSelector.is_image_file p = true ∧
      ChestXray14.MaskSelector.is_mask_file p = true) := by
  constructor
  · intro p
    simp only [BrainWithIntracranialHemorrhage.ImageSelector.is_image_file,
      BrainWithIntracranialHemorrhage.MaskSelector.is_mask_file]
    cases h1 : strContains p "." <;> cases h2 : strContains p "_HGE_Seg" <;> simp
  · intro p
    exact ⟨rfl, rfl⟩

/-- C6 amended, witness: "x_HGE_Seg" (mask-accepted, no dot) is disjoint, and
both ChestX-ray14 selectors accept "a". -/
theorem C6_selector_disjointness_amended_witness :
    (¬ (BrainWithIntracranialHemorrhage.ImageSelector.is_image_file "x_HGE_Seg" = true ∧
        BrainWithIntracranialHemorrhage.MaskSelector.is_mask_file "x_HGE_Seg" = true)) ∧
    (ChestXray14.ImageSelector.is_image_file "a" = true ∧
     ChestXray14.MaskSelector.is_mask_file "a" = true) :=
  ⟨(C6_selector_disjointness_amended.1 "x_HGE_Seg").mpr (Or.inl (by decide)),
   C6_selector_disjointness_amended.2 "a"⟩

/-- C5 counterexample: two distinct source paths with the same filename in
different directories are mapped to the same study id and the same image id,
for both datasets — the image-id extractors read only the filename, so they
are not injective on paths within a study. -/
theorem C5_img_id_injective_counterexample :
    (("a/S1/x.png" : String) ≠ "b/S1/x.png" ∧
     BrainWithIntracranialHemorrhage.StudyIdExtractor.extract "a/S1/x.png" =
       BrainWithIntracranialHemorrhage.StudyIdExtractor.extract "b/S1/x.png" ∧
     BrainWithIntracranialHemorrhage.ImgIdExtractor.extract "a/S1/x.png" =
       BrainWithIntracranialHemorrhage.ImgIdExtractor.extract "b/S1/x.png") ∧
    (("a/P1_i.png" : String) ≠ "b/P1_i.png" ∧
     ChestXray14.StudyIdExtractor.extract "a/P1_i.png" =
       ChestXray14.StudyIdExtractor.extract "b/P1_i.png" ∧
     ChestXray14.ImgIdExtractor.extract "a/P1_i.png" =
       ChestXray14.ImgIdExtractor.extract "b/P1_i.png") := by
  decide

/-- C5 amended: within a study the image-id extractors are injective only in
the filename component they read: two distinct paths mapped to the same study
id receive distinct image ids whenever (brain) their basenames differ,
respectively (ChestX-ray14) the segments of their filenames after the first
underscore differ. -/
theorem C5_img_id_injective_amended :
    (∀ p q : String,
      BrainWithIntracranialHemorrhage.StudyIdExtractor.extract p =
        BrainWithIntracranialHemorrhage.StudyIdExtractor.extract q →
      basename p ≠ basename q →
      BrainWithIntracranialHemorrhage.ImgIdExtractor.extract p ≠
        BrainWithIntracranialHemorrhage.ImgIdExtractor.extract q) ∧
    (∀ p q : String,
      ChestXray14.StudyIdExtractor.extract p = ChestXray14.StudyIdExtractor.extract q →
      extract_by_separator p '_' 1 ≠ extract_by_separator q '_' 1 →
      ChestXray14.ImgIdExtractor.extract p ≠ ChestXray14.ImgIdExtractor.extract q) :=
  ⟨fun _ _ _ h => h, fun _ _ _ h => h⟩

/-- C5 amended, witness: same study, different basenames / segments. -/
theorem C5_img_id_injective_amended_witness :
    BrainWithIntracranialHemorrhage.ImgIdExtractor.extract "a/S1/x.png" ≠
      BrainWithIntracranialHemorrhage.ImgIdExtractor.extract "a/S1/y.png" ∧
    ChestXray14.ImgIdExtractor.extract "a/P1_x.png" ≠
      ChestXray14.ImgIdExtractor.extract "a/P1_y.png" :=
  ⟨C5_img_id_injective_amended.1 "a/S1/x.png" "a/S1/y.png" (by decide) (by decide),
   C5_img_id_injective_amended.2 "a/P1_x.png" "a/P1_y.png" (by decide) (by decide)⟩

/-- C9: executing the same pipeline twice over an unchanged source tree is
deterministic — the engine model folds pure step transformations over the
initial context, so equal source trees yield identical target trees and
metadata records. -/
theorem C9_determinism (steps : List (RunContext → RunContext)) (t1 t2 : SourceTree)
    (h : t1 = t2) : runPipeline steps t1 = runPipeline steps t2 := by
  rw [h]

/-- C9, witness: a one-step pipeline over a one-file source tree, run twice. -/
theorem C9_determinism_witness :
    runPipeline [fun c => { c with metadata := ["record"] }] ⟨[("a/x.png", [7])]⟩ =
      runPipeline [fun c => { c with metadata := ["record"] }] ⟨[("a/x.png", [7])]⟩ :=
  C9_determinism [fun c => { c with metadata := ["record"] }] ⟨[("a/x.png", [7])]⟩
    ⟨[("a/x.png", [7])]⟩ rfl

/-- C2: for the brain label extractor, when the mask path exists on disk and
the mask contains a configured target class color (a pixel equal to it), the
result is the "brain_hemorrhage" label code list with raw labels
["brain_hemorrhage"]; when the mask path does not exist, the result is the
"normal" label code list with raw labels ["normal"]. -/
theorem C2_brain_label_extraction (labels : String → List String)
    (target_colors : List Color) (fs : String → Option Image)
    (img_path mask_path : String) :
    (∀ img c, fs mask_path = some img → c ∈ target_colors → c ≠ [] → c ∈ img →
      BrainWithIntracranialHemorrhage.LabelExtractor.extract labels target_colors fs
          img_path mask_path = (labels "brain_hemorrhage", ["brain_hemorrhage"])) ∧
    (fs mask_path = none →
      BrainWithIntracranialHemorrhage.LabelExtractor.extract labels target_colors fs
          img_path mask_path = (labels "normal", ["normal"])) := by
  constructor
  · intro img c hfs hc hne hmem
    unfold BrainWithIntracranialHemorrhage.LabelExtractor.extract
    rw [hfs]
    have hmatch : numpyElemMatch target_colors img = true := by
      unfold numpyElemMatch
      rw [List.any_eq_true]
      refine ⟨c, hc, ?_⟩
      rw [List.any_eq_true]
      refine ⟨c, hmem, ?_⟩
      cases c with
      | nil => exact absurd rfl hne
      | cons a t => simp
    simp [hmatch]
  · intro h
    unfold BrainWithIntracranialHemorrhage.LabelExtractor.extract
    rw [h]

/-- C2, witness: a filesystem with one mask holding the target color
(255,0,0) and a missing mask for the other image. -/
theorem C2_brain_label_extraction_witness :
    BrainWithIntracranialHemorrhage.LabelExtractor.extract
        (fun s => if s == "brain_hemorrhage" then ["h"] else ["n"]) [[255, 0, 0]]
        (fun p => if p == "m1" then some [[0, 0, 0], [255, 0, 0]] else none)
        "i1" "m1" = (["h"], ["brain_hemorrhage"]) ∧
    BrainWithIntracranialHemorrhage.LabelExtractor.extract
        (fun s => if s == "brain_hemorrhage" then ["h"] else ["n"]) [[255, 0, 0]]
        (fun p => if p == "m1" then some [[0, 0, 0], [255, 0, 0]] else none)
        "i2" "m2" = (["n"], ["normal"]) :=
  ⟨(C2_brain_label_extraction _ _ _ "i1" "m1").1 [[0, 0, 0], [255, 0, 0]] [255, 0, 0]
      rfl (by decide) (by decide) (by decide),
   (C2_brain_label_extraction _ _ _ "i2" "m2").2 rfl⟩

/-- C3: for the ChestX-ray14 label extractor, an image whose basename appears
in no "Image Index" entry of the label CSV yields `Except.ok ([], [])` — the
empty pair is returned as a valid result, not an error. -/
theorem C3_chest_unlabeled_image (labels : List (String × List String))
    (source_labels : List (String × String)) (img_path : String)
    (h : ∀ r ∈ source_labels, r.1 ≠ basename img_path) :
    ChestXray14.LabelExtractor.extract labels source_labels img_path =
      Except.ok ([], []) := by
  have hf : source_labels.filter (fun r => r.1 == basename img_path) = [] := by
    rw [List.filter_eq_nil_iff]
    intro a ha
    simpa using h a ha
  simp only [ChestXray14.LabelExtractor.extract]
  rw [hf]

/-- C3, witness: a CSV with one row for another image. -/
theorem C3_chest_unlabeled_image_witness :
    ChestXray14.LabelExtractor.extract [("Cardiomegaly", ["r1"])]
      [("x.png", "Cardiomegaly")] "d/y.png" = Except.ok ([], []) :=
  C3_chest_unlabeled_image [("Cardiomegaly", ["r1"])] [("x.png", "Cardiomegaly")]
    "d/y.png" (by decide)

/-- C4: the brain phase extractor fails with a KeyError-equivalent
(`Except.error` naming the offending phase folder) whenever the image's parent
folder name is absent from the configured phase lookup table — it never
returns a default phase id. -/
theorem C4_phase_lookup_fatal (phases : List (String × String)) (img_path : String)
    (h : ∀ q ∈ phases, q.1 ≠ extract_parent_dir img_path) :
    BrainWithIntracranialHemorrhage.PhaseExtractor.extract phases img_path =
      Except.error (extract_parent_dir img_path) := by
  unfold BrainWithIntracranialHemorrhage.PhaseExtractor.extract get_phase_id_from_dict
  have hfind : phases.find? (fun q => q.1 == extract_parent_dir img_path) = none := by
    rw [List.find?_eq_none]
    intro q hq
    simpa using h q hq
  rw [hfind]

/-- C4, witness: a phase table without the folder "UNKNOWN". -/
theorem C4_phase_lookup_fatal_witness :
    BrainWithIntracranialHemorrhage.PhaseExtractor.extract [("CT", "0")]
      "root/UNKNOWN/img.png" = Except.error "UNKNOWN" :=
  C4_phase_lookup_fatal [("CT", "0")] "root/UNKNOWN/img.png" (by decide)

/-- If some raw finding in the list has no entry in the label dictionary, the
lookup loop raises a KeyError (`Except.error`). -/
theorem lookupLabels_isError (labels : List (String × List String)) :
    ∀ ls : List String, (∃ l ∈ ls, labels.find? (fun q => q.1 == l) = none) →
      ∃ e, ChestXray14.lookupLabels labels ls = Except.error e := by
  intro ls
  induction ls with
  | nil =>
    rintro ⟨l, hl, -⟩
    simp at hl
  | cons a t ih =>
    rintro ⟨l, hl, hn⟩
    cases hfind : labels.find? (fun q => q.1 == a) with
    | none =>
      exact ⟨a, by rw [ChestXray14.lookupLabels, hfind]⟩
    | some q =>
      rcases List.mem_cons.mp hl with rfl | hlt
      · rw [hfind] at hn
        cases hn
      · obtain ⟨e, he⟩ := ih ⟨l, hlt, hn⟩
        refine ⟨e, ?_⟩
        rw [ChestXray14.lookupLabels, hfind, he]
        rfl

/-- C10: for the ChestX-ray14 label extractor, when the image's basename
matches a CSV row whose "Finding Labels" entry contains a finding absent from
the label vocabulary, the extraction raises a KeyError (`Except.error`) rather
than returning a defaulted or empty result. -/
theorem C10_chest_unknown_finding_keyerror (labels : List (String × List String))
    (source_labels : List (String × String)) (img_path : String)
    (r : String × String) (rest : List (String × String))
    (hr : source_labels.filter (fun x => x.1 == basename img_path) = r :: rest)
    (hmiss : ∃ l ∈ splitOnChar r.2 '|', labels.find? (fun q => q.1 == l) = none) :
    ∃ e, ChestXray14.LabelExtractor.extract labels source_labels img_path =
      Except.error e := by
  obtain ⟨e, he⟩ := lookupLabels_isError labels _ hmiss
  refine ⟨e, ?_⟩
  simp only [ChestXray14.LabelExtractor.extract]
  rw [hr]
  simp [he, Except.map]

/-- C10, witness: image "a.png" has findings "Cardiomegaly|Weird" but only
"Cardiomegaly" is in the vocabulary. -/
theorem C10_chest_unknown_finding_keyerror_witness :
    ∃ e, ChestXray14.LabelExtractor.extract [("Cardiomegaly", ["r1"])]
      [("a.png", "Cardiomegaly|Weird")] "d/a.png" = Except.error e :=
  C10_chest_unknown_finding_keyerror [("Cardiomegaly", ["r1"])]
    [("a.png", "Cardiomegaly|Weird")] "d/a.png" ("a.png", "Cardiomegaly|Weird") []
    (by decide) ⟨"Weird", by decide, by decide⟩

/-! ## Generated-id properties (C7) -/

/-- With fuel at least `n`, the fueled digit function agrees with
`Nat.digits 10`. -/
theorem decDigitsFuel_eq (fuel : Nat) :
    ∀ n, n ≤ fuel → decDigitsFuel fuel n = Nat.digits 10 n := by
  induction fuel with
  | zero =>
    intro n h
    interval_cases n
    simp [decDigitsFuel]
  | succ fuel ih =>
    intro n h
    by_cases hn : n = 0
    · simp [decDigitsFuel, hn]
    · rw [decDigitsFuel, if_neg hn,
        Nat.digits_def' (b := 10) (by norm_num) (Nat.pos_of_ne_zero hn), ih (n / 10) ?_]
      have : n / 10 < n := Nat.div_lt_self (Nat.pos_of_ne_zero hn) (by norm_num)
      omega

/-- `decDigits` computes `Nat.digits 10`. -/
theorem decDigits_eq (n : Nat) : decDigits n = Nat.digits 10 n :=
  decDigitsFuel_eq n n le_rfl

/-- Zero-filling pads a string to width `w` and never shortens it. -/
theorem length_zfillStr (w : Nat) (s : String) :
    (zfillStr w s).length = max w s.length := by
  show (List.replicate (w - s.length) '0' ++ s.data).length = max w s.length
  rw [List.length_append, List.length_replicate]
  have : s.data.length = s.length := rfl
  omega

/-- The decimal rendering has one character per digit. -/
theorem length_decRepr (n : Nat) : (decRepr n).length = (Nat.digits 10 n).length := by
  show (((decDigits n).map Nat.digitChar).reverse).length = _
  rw [List.length_reverse, List.length_map, decDigits_eq]

/-- A nonzero number below `10 ^ w` has at most `w` decimal digits. -/
theorem digits_len_le' {m w : Nat} (hm : m ≠ 0) (h : m < 10 ^ w) :
    (Nat.digits 10 m).length ≤ w := by
  rw [Nat.digits_len 10 m (by norm_num) hm]
  have := (Nat.lt_pow_iff_log_lt (by norm_num) hm).1 h
  omega

/-- `Nat.digitChar` is injective on decimal digits. -/
theorem digitChar_injOn : ∀ d, d < 10 → ∀ e, e < 10 →
    Nat.digitChar d = Nat.digitChar e → d = e := by decide

/-- A nonzero decimal digit never renders as the character "0". -/
theorem digitChar_ne_zero_char : ∀ d, d < 10 → d ≠ 0 →
    (Nat.digitChar d == '0') = false := by decide

/-- Digit lists rendering to the same characters are equal. -/
theorem map_digitChar_inj : ∀ {l1 l2 : List Nat}, (∀ d ∈ l1, d < 10) →
    (∀ d ∈ l2, d < 10) → l1.map Nat.digitChar = l2.map Nat.digitChar → l1 = l2 := by
  intro l1
  induction l1 with
  | nil =>
    intro l2 _ _ h
    cases l2 with
    | nil => rfl
    | cons b u => simp at h
  | cons a t ih =>
    intro l2 h1 h2 h
    cases l2 with
    | nil => simp at h
    | cons b u =>
      simp only [List.map_cons, List.cons.injEq] at h
      have hab : a = b := digitChar_injOn a (h1 a (by simp)) b (h2 b (by simp)) h.1
      rw [hab, ih (fun d hd => h1 d (by simp [hd])) (fun d hd => h2 d (by simp [hd])) h.2]

/-- Dropping leading "0" characters skips any zero padding. -/
theorem dropWhile_replicate_zero_append (k : Nat) (l : List Char) :
    List.dropWhile (fun c => c == '0') (List.replicate k '0' ++ l) =
      List.dropWhile (fun c => c == '0') l := by
  induction k with
  | zero => rfl
  | succ k ih => simp [List.replicate_succ, List.dropWhile_cons, ih]

/-- Dropping leading "0" characters leaves a list whose head is not "0". -/
theorem dropWhile_cons_ne (a : Char) (l : List Char) (h : (a == '0') = false) :
    List.dropWhile (fun c => c == '0') (a :: l) = a :: l := by
  simp [List.dropWhile_cons, h]

/-- Stripping the zero padding from a zero-filled decimal rendering of a
nonzero number recovers the rendering: its leading character is a nonzero
digit. -/
theorem dropWhile_zfill_decRepr (m : Nat) (hm : m ≠ 0) (k : Nat) :
    List.dropWhile (fun c => c == '0') (List.replicate k '0' ++ (decRepr m).data) =
      (decRepr m).data := by
  rw [dropWhile_replicate_zero_append]
  have hne : Nat.digits 10 m ≠ [] := Nat.digits_ne_nil_iff_ne_zero.mpr hm
  have hsplit : (Nat.digits 10 m).dropLast ++ [(Nat.digits 10 m).getLast hne] =
      Nat.digits 10 m := List.dropLast_append_getLast hne
  have hdata : (decRepr m).data =
      Nat.digitChar ((Nat.digits 10 m).getLast hne) ::
        ((Nat.digits 10 m).dropLast.map Nat.digitChar).reverse := by
    show ((decDigits m).map Nat.digitChar).reverse = _
    rw [decDigits_eq]
    conv_lhs => rw [← hsplit]
    rw [List.map_append, List.reverse_append]
    simp
  rw [hdata]
  apply dropWhile_cons_ne
  exact digitChar_ne_zero_char _
    (Nat.digits_lt_base (by norm_num) (List.getLast_mem hne))
    (Nat.getLast_digit_ne_zero 10 hm)

/-- Zero-filled decimal renderings of distinct nonzero numbers differ, at any
fill width. -/
theorem zfill_decRepr_inj {w a b : Nat} (ha : a ≠ 0) (hb : b ≠ 0)
    (h : zfillStr w (decRepr a) = zfillStr w (decRepr b)) : a = b := by
  have hd : List.replicate (w - (decRepr a).length) '0' ++ (decRepr a).data =
      List.replicate (w - (decRepr b).length) '0' ++ (decRepr b).data :=
    congrArg String.data h
  have h2 : (decRepr a).data = (decRepr b).data := by
    have := congrArg (List.dropWhile (fun c => c == '0')) hd
    rwa [dropWhile_zfill_decRepr a ha, dropWhile_zfill_decRepr b hb] at this
  have h3 : (Nat.digits 10 a).map Nat.digitChar = (Nat.digits 10 b).map Nat.digitChar := by
    have hr : ((decDigits a).map Nat.digitChar).reverse =
        ((decDigits b).map Nat.digitChar).reverse := h2
    rw [decDigits_eq, decDigits_eq] at hr
    exact List.reverse_injective hr
  have h4 : Nat.digits 10 a = Nat.digits 10 b :=
    map_digitChar_inj (fun d hd => Nat.digits_lt_base (by norm_num) hd)
      (fun d hd => Nat.digits_lt_base (by norm_num) hd) h3
  exact Nat.digits.injective 10 h4

/-- C7 counterexample: with zfill width 1 and 10 images, the generated id "10"
is 2 characters wide, not the configured 1 — "exactly zfill wide" does not
hold for every run. -/
theorem C7_generated_ids_counterexample :
    "10" ∈ genIds 1 10 ∧ ("10" : String).length ≠ 1 := by decide

/-- C7 amended: for every run, the generated image ids are pairwise distinct,
and provided the run has fewer than `10 ^ zfill` images, each id is exactly
`zfill` characters wide; in particular for ChestX-ray14 with zfill=4 and 15
images every id is exactly 4 characters wide with no collisions. -/
theorem C7_generated_ids_distinct_and_padded (w n : Nat) (h : n < 10 ^ w) :
    (genIds w n).Pairwise (· ≠ ·) ∧
      (genIds w n).all (fun i => i.length == w) = true := by
  constructor
  · rw [genIds, List.pairwise_map]
    refine (List.pairwise_lt_range n).imp ?_
    intro i j hij heq
    have := zfill_decRepr_inj (w := w) (by omega) (by omega) heq
    omega
  · rw [List.all_eq_true]
    intro i hi
    rw [genIds, List.mem_map] at hi
    obtain ⟨j, hj, rfl⟩ := hi
    rw [List.mem_range] at hj
    have hw : (zfillStr w (decRepr (j + 1))).length = w := by
      rw [length_zfillStr, length_decRepr]
      have h1 : (Nat.digits 10 (j + 1)).length ≤ w := digits_len_le' (by omega) (by omega)
      omega
    simp [hw]

/-- C7 amended, witness: zfill=4 and 15 images. -/
theorem C7_generated_ids_distinct_and_padded_witness :
    (genIds 4 15).Pairwise (· ≠ ·) ∧
      (genIds 4 15).all (fun i => i.length == 4) = true :=
  C7_generated_ids_distinct_and_padded 4 15 (by norm_num)
